import Mathlib

/-!
Verification of the time-series aggregation pipeline of the
Sweden-COVID-website repository against its specification.

The embedding below translates, from the Python sources, the parts of
the pipeline that the claims concern:

* country_comparison.py : cumulative deaths/cases per country, cruise
  liner exclusion, group-by sum, population left join, per-million
  columns, daily deltas with negative clamp, 7 day rolling average with
  min_periods = 1, dropna.
* covid_cases.py        : per county daily cases, 7 day rolling average
  with the pandas default min_periods (= window), per 10 000 columns,
  and the in-place date conversion on the shared fhm_data table.
* covid_deaths.py       : prepare_data (which copies its input) and the
  weekly deaths truncation (first zero scan minus 3) of
  prepare_weekly_deaths_data.
* covid_maps.py         : the per 10 000 map value computations.
* covid_tests.py        : the weekly test count cache update
  (read, append, drop_duplicates, sort, write).

A pandas numeric cell is modelled as Option ℚ, none standing for NaN;
a fallible lookup returns Option; machine floats are modelled by exact
rationals.
-/

namespace SwedenCovid

/-- A cell of a pandas numeric column: some q for a number, none for NaN. -/
abbrev Cell := Option ℚ

/-- pandas Series.rolling(window=w, min_periods=m).mean() over a column
with possible NaN cells: at position i the trailing window holds the
last min (i + 1) w cells; the mean is taken over the non-NaN cells of
the window, and the result is NaN when fewer than m non-NaN cells are
present.  Sources: country_comparison.py line 77 and line 142
(window=7, min_periods=1), covid_cases.py line 40 and
covid_deaths.py line 39 (window=7, default min_periods = window). -/
def rollingMean (window minPeriods : ℕ) (l : List Cell) : List Cell :=
  (List.range l.length).map fun i =>
    let vals := ((l.take (i + 1)).drop (i + 1 - window)).filterMap id
    if minPeriods ≤ vals.length then some (vals.sum / (vals.length : ℚ))
    else none

/-- The trailing window of the last min (i + 1) w values of a pure
(NaN-free) series, ending at position i. -/
def trailingWindow (w : ℕ) (l : List ℚ) (i : ℕ) : List ℚ :=
  (l.take (i + 1)).drop (i + 1 - w)

/-- pandas Series.diff() on one entity's chronologically sorted
cumulative column: NaN at the first position, value at i minus value at
i - 1 afterwards.  Source: country_comparison.py line 70 and
line 135. -/
def diffs (l : List ℚ) : List Cell :=
  (List.range l.length).map fun i =>
    if i = 0 then none else some (l.getD i 0 - l.getD (i - 1) 0)

/-- np.where(col < 0, 0, col) on a delta column: a negative delta is
replaced by 0; a NaN cell stays NaN (NaN < 0 is false and np.where then
keeps the NaN element of col).  Source: country_comparison.py line 74
and line 139. -/
def clampNegative (l : List Cell) : List Cell :=
  l.map (Option.map fun x => if x < 0 then 0 else x)

/-- The daily column of country_comparison.py: first difference of the
cumulative column, then the negative clamp (lines 70 and 74). -/
def dailyColumn (cum : List ℚ) : List Cell := clampNegative (diffs cum)

/-- The 7_day_average column: rolling mean with window 7 and
min_periods 1 of the already clamped daily column.  Source:
country_comparison.py line 77. -/
def sevenDayAverage (cum : List ℚ) : List Cell :=
  rollingMean 7 1 (dailyColumn cum)

/-- A per-capita cell: value / population * scale.  A NaN in either
operand propagates (pandas arithmetic with NaN yields NaN), so a
missing population yields a missing per-capita value.  Sources:
country_comparison.py lines 63 and 79, covid_cases.py lines 64
to 68. -/
def perCapitaCell (value pop : Cell) (scale : ℚ) : Cell :=
  match value, pop with
  | some v, some p => some (v / p * scale)
  | _, _ => none

/-- The population left join, keyed by the entity label: the first
matching reference row supplies the population, a join miss leaves the
field NaN and never raises.  Sources: country_comparison.py lines 54
to 61, covid_cases.py lines 52 to 55. -/
def lookupPop (ref : List (String × ℚ)) (entity : String) : Cell :=
  (ref.find? fun r => r.1 == entity).map fun r => r.2

/-- One row of the enriched per-country deaths table of
country_comparison.py, holding the derived columns that the dropna
call at line 83 inspects. -/
structure CRow where
  date : ℕ
  deaths : ℚ
  deathsPerMillion : Cell
  daily : Cell
  sevenDay : Cell
  sevenDayPerMillion : Cell
deriving DecidableEq, Repr

/-- The per-country derived-column pipeline of country_comparison.py
lines 63 to 79: deaths per million, clamped daily delta, 7 day rolling
average, 7 day rolling average per million, for one country with
cumulative series cum, report dates dates, and joined population
pop. -/
def countryRows (dates : List ℕ) (cum : List ℚ) (pop : Cell) :
    List CRow :=
  (List.range cum.length).map fun i =>
    { date := dates.getD i 0
      deaths := cum.getD i 0
      deathsPerMillion := perCapitaCell (some (cum.getD i 0)) pop 1000000
      daily := (dailyColumn cum).getD i none
      sevenDay := (sevenDayAverage cum).getD i none
      sevenDayPerMillion :=
        perCapitaCell ((sevenDayAverage cum).getD i none) pop 1000000 }

/-- df.dropna() on the table above: a row survives exactly when none of
its cells is NaN (deaths and date are never NaN in the source data).
Source: country_comparison.py line 83. -/
def dropna (rows : List CRow) : List CRow :=
  rows.filter fun r =>
    r.deathsPerMillion.isSome && r.daily.isSome &&
      r.sevenDay.isSome && r.sevenDayPerMillion.isSome

/-- Python round(q, 3) of the map modules, modelled as rounding
q * 1000 to the nearest integer. -/
def round3 (q : ℚ) : ℚ := ((round (q * 1000) : ℤ) : ℚ) / 1000

/-- The value plotted by Maps.map_Sweden_map_cases_10000: covid_maps.py
lines 108 to 110 compute round(Totalt_antal_fall / population_2019
* 1000, 3), although the docstring, the column name cases_per_10000 and
the output file name all say per 10 000 inhabitants. -/
def maps_cases_per_10000 (fall pop : ℚ) : ℚ := round3 (fall / pop * 1000)

/-- The value plotted by Maps.map_Sweden_map_deaths_10000:
covid_maps.py lines 214 to 216 compute round(Totalt_antal_avlidna /
population_2019 * 1000, 3) under the column name deaths_per_10000. -/
def maps_deaths_per_10000 (avlidna pop : ℚ) : ℚ :=
  round3 (avlidna / pop * 1000)

/-- The county cases per 10 000 column of covid_cases.py lines 64
to 65: cases / population_2019 * 10000. -/
def cases_per_10000 (cases pop : Cell) : Cell :=
  perCapitaCell cases pop 10000

/-- Helper for keepFirst: elements already seen are skipped, the others
are kept and recorded. -/
def keepFirstAux {α : Type} [DecidableEq α] (seen : List α) :
    List α → List α
  | [] => []
  | a :: l =>
    if a ∈ seen then keepFirstAux seen l
    else a :: keepFirstAux (a :: seen) l

/-- pandas drop_duplicates() over entire rows, keeping the first
occurrence of each distinct element; also used as the set of distinct
group keys produced by a pandas groupby.  Sources:
covid_tests.py line 169 and country_comparison.py line 39. -/
def keepFirst {α : Type} [DecidableEq α] (l : List α) : List α :=
  keepFirstAux [] l

/-- One raw row of the JHU global deaths sheet after the melt of
country_comparison.py lines 27 to 33: a province or state, a country,
a date and the value of one melted date column. -/
structure JRow where
  province : String
  country : String
  date : ℕ
  deaths : ℚ
deriving DecidableEq

/-- The two cruise liner labels dropped by country_comparison.py
line 36. -/
def excludedCountries : List String := ["Diamond Princess", "MS Zaandam"]

/-- country_comparison.py line 36: keep only rows whose country label
is not one of the excluded cruise liner labels. -/
def dropCruiseLiners (rows : List JRow) : List JRow :=
  rows.filter fun r => ¬ r.country ∈ excludedCountries

/-- country_comparison.py line 39: group by (country, date) and sum
the deaths of each group; one aggregated row per distinct key. -/
def groupBySum (rows : List JRow) : List ((String × ℕ) × ℚ) :=
  (keepFirst (rows.map fun r => (r.country, r.date))).map fun k =>
    (k, ((rows.filter fun r => (r.country, r.date) = k).map
      fun r => r.deaths).sum)

/-- The aggregation step of country_comparison.py lines 36 to 39:
exclusion first, then the group by sum. -/
def aggregateDeaths (rows : List JRow) : List ((String × ℕ) × ℚ) :=
  groupBySum (dropCruiseLiners rows)

/-- Index of the first element satisfying p, none when no element
does. -/
def firstTrueIdx {α : Type} (p : α → Bool) : List α → Option ℕ
  | [] => none
  | x :: l => if p x then some 0 else (firstTrueIdx p l).map (· + 1)

/-- np.argmax over the boolean column (pandemic == 0): the position of
the first zero, and 0 when the column holds no zero at all (the argmax
of an all false series is its first position).  Source:
covid_deaths.py line 269. -/
def argmaxFirstZero (l : List ℚ) : ℕ :=
  (firstTrueIdx (fun x => x = 0) l).getD 0

/-- Python list slicing ls[:stop] with a possibly negative stop: a
nonnegative stop keeps the first stop elements, a negative stop drops
the last (-stop) elements (clamped at an empty result). -/
def pySliceTo {α : Type} (l : List α) (stop : ℤ) : List α :=
  if 0 ≤ stop then l.take stop.toNat
  else l.take (l.length - (-stop).toNat)

/-- covid_deaths.py lines 268 to 269: the sweden_average frame is cut
at the first position whose pandemic value is exactly zero, minus 3
further positions; modelled on the pandemic column itself since iloc
applies one row selection to every column. -/
def truncateWeekly (pandemic : List ℚ) : List ℚ :=
  pySliceTo pandemic ((argmaxFirstZero pandemic : ℤ) - 3)

/-- One row of the weekly test count cache data/weekly_tests.csv:
year, week number and the three scraped counts.  Source:
covid_tests.py lines 147 to 155. -/
structure TRow where
  year : ℕ
  vecka : ℕ
  numberIndividualTests : ℕ
  numberTests : ℕ
  numberAntibody : ℕ
deriving DecidableEq

/-- The sort key order of weekly_tests.sort_values(of year and vecka):
by year, ties broken by week. -/
def cacheLE (a b : TRow) : Prop :=
  a.year < b.year ∨ (a.year = b.year ∧ a.vecka ≤ b.vecka)

instance : DecidableRel cacheLE := fun a b => by
  rw [cacheLE]
  infer_instance

/-- The cache update of covid_tests.py lines 166 to 174: read the
existing rows, append the newly scraped rows, drop_duplicates() over
entire rows keeping first occurrences, sort by (year, vecka), write
back. -/
def updateCache (cache scraped : List TRow) : List TRow :=
  List.insertionSort cacheLE (keepFirst (cache ++ scraped))

/-- A cell of the Statistikdatum or Datum_avliden column: a raw string
as read from the spreadsheet, or the datetime pd.to_datetime parsed
from it. -/
inductive DateCell where
  | raw (s : String)
  | parsed (s : String)
deriving DecidableEq

/-- pd.to_datetime with a fixed format on a date column cell; parsing
an already parsed cell keeps it. -/
def toDatetime : DateCell → DateCell
  | .raw s => .parsed s
  | .parsed s => .parsed s

/-- The wide Antal per dag region sheet of the shared fhm_data
dictionary: the Statistikdatum column and one cases column per
county. -/
structure RegionSheet where
  statistikdatum : List DateCell
  countyColumns : List (String × List ℚ)
deriving DecidableEq

/-- The shared fhm_data tables that the two prepare steps under
scrutiny touch: the wide per day per region sheet and the deaths per
day sheet (date string and count per row). -/
structure FhmData where
  antalPerDagRegion : RegionSheet
  antalAvlidnaPerDag : List (String × ℚ)
deriving DecidableEq

/-- The state shared between pipeline modules: the fhm_data dictionary
of tables downloaded once in main.py and the counties population
table, both passed to every module. -/
structure PipelineState where
  fhmData : FhmData
  countiesPop : List (String × ℚ)
deriving DecidableEq

/-- The output of Deaths.prepare_data: the filtered date column, the
daily deaths and their 7 day rolling mean. -/
structure DeathsPrepared where
  datumAvliden : List DateCell
  antalAvlidna : List ℚ
  total7Day : List Cell
deriving DecidableEq

/-- CasesData.prepare_cases_data, covid_cases.py lines 20 to 40, as a
state transformer: daily_cases is bound to the shared fhm_data sheet
WITHOUT a copy, and the first statement assigns the parsed
Statistikdatum column back into that shared sheet (an in-place pandas
column assignment), so the post state carries the parsed column; the
subsequent melt produces a fresh frame, and the returned value holds
the melted per county series with their 7 day rolling average
(window 7, pandas default min_periods). -/
def prepare_cases_data (st : PipelineState) :
    PipelineState × List (String × List ℚ × List Cell) :=
  let sheet := st.fhmData.antalPerDagRegion
  let parsed := sheet.statistikdatum.map toDatetime
  let mutated : RegionSheet :=
    { statistikdatum := parsed, countyColumns := sheet.countyColumns }
  let melted := sheet.countyColumns.map fun c =>
    (c.1, c.2, rollingMean 7 7 (c.2.map some))
  ({ st with fhmData := { st.fhmData with antalPerDagRegion := mutated } },
    melted)

/-- Deaths.prepare_data, covid_deaths.py lines 25 to 42, as a state
transformer: the shared sheet is copied first (line 28), so the filter
of the unknown date row, the date parse and the rolling average all
act on the copy and the shared state is returned untouched. -/
def prepare_data (st : PipelineState) : PipelineState × DeathsPrepared :=
  let copied := st.fhmData.antalAvlidnaPerDag
  let kept := copied.filter fun r => ¬ r.1 = "Uppgift saknas"
  (st,
    { datumAvliden := kept.map fun r => toDatetime (DateCell.raw r.1)
      antalAvlidna := kept.map fun r => r.2
      total7Day := rollingMean 7 7 (kept.map fun r => some r.2) })

lemma filterMap_id_map_some (l : List ℚ) :
    (l.map (some : ℚ → Option ℚ)).filterMap id = l := by
  induction l with
  | nil => rfl
  | cons x xs ih => simp [List.filterMap_cons, ih]

lemma window_map_some (w : ℕ) (l : List ℚ) (i : ℕ) :
    (((l.map some).take (i + 1)).drop (i + 1 - w)).filterMap id =
      trailingWindow w l i := by
  rw [← List.map_take, ← List.map_drop, filterMap_id_map_some,
    trailingWindow]

lemma length_trailingWindow (w : ℕ) (l : List ℚ) (i : ℕ)
    (hi : i < l.length) :
    (trailingWindow w l i).length = min (i + 1) w := by
  rw [trailingWindow, List.length_drop, List.length_take]
  omega

lemma rollingMean_getElem? (window minPeriods : ℕ) (l : List Cell)
    (i : ℕ) (hi : i < l.length) :
    (rollingMean window minPeriods l)[i]? =
      some (
        let vals := ((l.take (i + 1)).drop (i + 1 - window)).filterMap id
        if minPeriods ≤ vals.length then some (vals.sum / (vals.length : ℚ))
        else none) := by
  rw [rollingMean, List.getElem?_map, List.getElem?_range hi]
  rfl

/-- C1: the claim asserts that the rolling-average step is defined at
every position of every delta series and never emits NaN.  This is
refuted by the covid_cases.py rolling step (window=7, pandas default
min_periods = 7): on the series 10, 20, 30 every output position is
NaN; in particular the 3rd position is NaN rather than the claimed
mean 20. -/
theorem c1_counterexample :
    rollingMean 7 7 ([10, 20, 30].map (some : ℚ → Option ℚ)) =
      [none, none, none] ∧
    rollingMean 7 7 ([10, 20, 30].map (some : ℚ → Option ℚ)) ≠
      [some 10, some 15, some 20] := by
  constructor
  · rfl
  · decide

/-- C1 (amended): on a NaN-free series the country_comparison.py
rolling step (window=7, min_periods=1) is defined at every position i
and equals the mean of the min (i + 1) 7 most recent points, while the
covid_cases.py rolling step (window=7, default min_periods = window)
is NaN at each of the first 6 positions and equals the mean of the 7
most recent points from position 6 on. -/
theorem c1_amended (l : List ℚ) (i : ℕ) (hi : i < l.length) :
    (rollingMean 7 1 (l.map some))[i]? =
      some (some ((trailingWindow 7 l i).sum / ((min (i + 1) 7 : ℕ) : ℚ))) ∧
    (i < 6 → (rollingMean 7 7 (l.map some))[i]? = some none) ∧
    (6 ≤ i → (rollingMean 7 7 (l.map some))[i]? =
      some (some ((trailingWindow 7 l i).sum / (7 : ℚ)))) := by
  have hlen : i < (l.map some).length := by simpa using hi
  have hwin := window_map_some 7 l i
  have hlen' := length_trailingWindow 7 l i hi
  refine ⟨?_, ?_, ?_⟩
  · rw [rollingMean_getElem? 7 1 _ i hlen]
    simp only [hwin, hlen']
    have h1 : 1 ≤ min (i + 1) 7 := by omega
    rw [if_pos h1]
  · intro h6
    rw [rollingMean_getElem? 7 7 _ i hlen]
    simp only [hwin, hlen']
    have h7 : ¬ 7 ≤ min (i + 1) 7 := by omega
    rw [if_neg h7]
  · intro h6
    rw [rollingMean_getElem? 7 7 _ i hlen]
    simp only [hwin, hlen']
    have h7 : 7 ≤ min (i + 1) 7 := by omega
    have hmin : min (i + 1) 7 = 7 := by omega
    rw [if_pos h7, hmin]
    norm_num

/-- C1 amended, witnessed at the series 10,20,30 at position 2 (the
min_periods=1 engine yields mean 20 there) and at a 7 point series at
position 6 (the strict engine becomes defined). -/
theorem c1_amended_witness :
    (rollingMean 7 1 (([10, 20, 30] : List ℚ).map some))[2]? =
      some (some 20) ∧
    (rollingMean 7 7 (([10, 20, 30] : List ℚ).map some))[2]? =
      some none := by
  have h := c1_amended [10, 20, 30] 2 (by decide)
  refine ⟨?_, h.2.1 (by decide)⟩
  have h1 := h.1
  have heq : (trailingWindow 7 [10, 20, 30] 2).sum /
      ((min (2 + 1) 7 : ℕ) : ℚ) = 20 := by
    norm_num [trailingWindow]
  rwa [heq] at h1

lemma mem_clampNegative_nonneg (l : List Cell) (d : ℚ)
    (hd : some d ∈ clampNegative l) : 0 ≤ d := by
  rw [clampNegative] at hd
  obtain ⟨c, _, hmap⟩ := List.mem_map.mp hd
  cases c with
  | none => simp at hmap
  | some x =>
    obtain rfl : (if x < 0 then 0 else x) = d := by simpa using hmap
    split_ifs with h
    · exact le_rfl
    · exact le_of_not_lt h

lemma mem_rollingMean_nonneg (w m : ℕ) (l : List Cell)
    (hl : ∀ x : ℚ, some x ∈ l → 0 ≤ x) (a : ℚ)
    (ha : some a ∈ rollingMean w m l) : 0 ≤ a := by
  rw [rollingMean] at ha
  obtain ⟨i, _, hf⟩ := List.mem_map.mp ha
  dsimp only at hf
  have hsum : 0 ≤ (((l.take (i + 1)).drop (i + 1 - w)).filterMap id).sum := by
    apply List.sum_nonneg
    intro x hx
    obtain ⟨c, hcmem, hcx⟩ := List.mem_filterMap.mp hx
    obtain rfl : c = some x := hcx
    exact hl x (List.mem_of_mem_take (List.mem_of_mem_drop hcmem))
  split_ifs at hf with hc
  have hval := Option.some.inj hf
  rw [← hval]
  exact div_nonneg hsum (Nat.cast_nonneg _)

/-- C3: after the negative clamp every defined daily delta is
nonnegative, and since the clamp runs before the rolling step (the
7 day average column is, by the pipeline order of
country_comparison.py lines 70 to 77, the rolling mean of the already
clamped column) every defined 7 day rolling average is nonnegative as
well. -/
theorem c3_clamped_deltas_nonneg (cum : List ℚ) :
    (∀ d : ℚ, some d ∈ dailyColumn cum → 0 ≤ d) ∧
    sevenDayAverage cum = rollingMean 7 1 (clampNegative (diffs cum)) ∧
    (∀ a : ℚ, some a ∈ sevenDayAverage cum → 0 ≤ a) := by
  refine ⟨fun d hd => mem_clampNegative_nonneg _ d hd, rfl,
    fun a ha => mem_rollingMean_nonneg 7 1 _
      (fun x hx => mem_clampNegative_nonneg _ x hx) a ha⟩

/-- C3 witnessed on the spec example: the cumulative series
100, 90, 130 yields the clamped deltas NaN, 0, 40, and the theorem
applies to the concrete deltas 0 and 40 found in the column. -/
theorem c3_witness :
    dailyColumn [100, 90, 130] = [none, some 0, some 40] ∧
    (0 : ℚ) ≤ 0 ∧ (0 : ℚ) ≤ 40 := by
  have heval : dailyColumn [100, 90, 130] = [none, some 0, some 40] := by
    norm_num [dailyColumn, clampNegative, diffs, List.range_succ,
      List.getD]
  refine ⟨heval, (c3_clamped_deltas_nonneg [100, 90, 130]).1 0 ?_,
    (c3_clamped_deltas_nonneg [100, 90, 130]).1 40 ?_⟩ <;>
    simp [heval]

/-- C2 (code bug): for a county with 50 000 total cases or deaths and
population 100 000, the covid_maps.py per 10 000 map value is 500, not
the 5 000 that value / population * 10 000 gives: the code multiplies
by 1 000 although docstrings, column names and file names say
per 10 000.  The covid_cases.py per 10 000 column does use the
10 000 scale. -/
theorem c2_code_bug_eval :
    maps_cases_per_10000 50000 100000 = 500 ∧
    maps_deaths_per_10000 50000 100000 = 500 ∧
    maps_cases_per_10000 50000 100000 ≠ (50000 : ℚ) / 100000 * 10000 ∧
    cases_per_10000 (some 50000) (some 100000) = some 5000 := by
  have h500 : maps_cases_per_10000 50000 100000 = 500 := by
    rw [maps_cases_per_10000, round3]
    norm_num
  have h500d : maps_deaths_per_10000 50000 100000 = 500 := by
    rw [maps_deaths_per_10000, round3]
    norm_num
  refine ⟨h500, h500d, ?_, ?_⟩
  · rw [h500]; norm_num
  · rw [cases_per_10000, perCapitaCell]
    norm_num

/-- C5: a join miss (entity absent from the population reference
table) yields a NaN population without raising, and every per-capita
computation on that row is NaN: it is never zero and never any numeric
value at all (so in particular not an infinity). -/
theorem c5_join_miss (ref : List (String × ℚ)) (entity : String)
    (hmiss : ∀ p ∈ ref, p.1 ≠ entity) (v : Cell) (scale : ℚ) :
    lookupPop ref entity = none ∧
    perCapitaCell v (lookupPop ref entity) scale = none ∧
    ∀ z : ℚ, perCapitaCell v (lookupPop ref entity) scale ≠ some z := by
  have hnone : lookupPop ref entity = none := by
    rw [lookupPop, List.find?_eq_none.mpr, Option.map_none']
    intro p hp
    simpa using hmiss p hp
  refine ⟨hnone, ?_, ?_⟩
  · rw [hnone]; cases v <;> rfl
  · intro z
    rw [hnone]; cases v <;> simp [perCapitaCell]

/-- C5 witnessed: the entity Utopia is absent from a one row reference
table; the join yields NaN and the per-million computation yields NaN,
not a number. -/
theorem c5_witness :
    lookupPop [("Sweden", 10327589)] "Utopia" = none ∧
    perCapitaCell (some 5) (lookupPop [("Sweden", 10327589)] "Utopia")
      1000000 = none := by
  have h := c5_join_miss [("Sweden", 10327589)] "Utopia" (by decide)
    (some 5) 1000000
  exact ⟨h.1, h.2.1⟩

lemma length_dailyColumn (cum : List ℚ) :
    (dailyColumn cum).length = cum.length := by
  simp [dailyColumn, clampNegative, diffs]

lemma countryRows_getElem? (dates : List ℕ) (cum : List ℚ) (pop : Cell)
    (i : ℕ) (hi : i < cum.length) :
    (countryRows dates cum pop)[i]? =
      some
        { date := dates.getD i 0
          deaths := cum.getD i 0
          deathsPerMillion := perCapitaCell (some (cum.getD i 0)) pop 1000000
          daily := (dailyColumn cum).getD i none
          sevenDay := (sevenDayAverage cum).getD i none
          sevenDayPerMillion :=
            perCapitaCell ((sevenDayAverage cum).getD i none) pop 1000000 } := by
  rw [countryRows, List.getElem?_map, List.getElem?_range hi]
  rfl

lemma dailyColumn_getElem?_zero (cum : List ℚ) (h : 0 < cum.length) :
    (dailyColumn cum)[0]? = some none := by
  rw [dailyColumn, clampNegative, List.getElem?_map, diffs,
    List.getElem?_map, List.getElem?_range h]
  rfl

lemma dailyColumn_getElem?_succ (cum : List ℚ) (i : ℕ)
    (h : i + 1 < cum.length) :
    (dailyColumn cum)[i + 1]? =
      some (some
        (if cum.getD (i + 1) 0 - cum.getD i 0 < 0 then 0
         else cum.getD (i + 1) 0 - cum.getD i 0)) := by
  rw [dailyColumn, clampNegative, List.getElem?_map, diffs,
    List.getElem?_map, List.getElem?_range h]
  simp

lemma sevenDayAverage_isSome_succ (cum : List ℚ) (i : ℕ)
    (h : i + 1 < cum.length) :
    ∃ q : ℚ, (sevenDayAverage cum)[i + 1]? = some (some q) := by
  have hlen : i + 1 < (dailyColumn cum).length := by
    rw [length_dailyColumn]; exact h
  rw [sevenDayAverage, rollingMean_getElem? 7 1 _ (i + 1) hlen]
  set dc := dailyColumn cum with hdc
  have hcell := dailyColumn_getElem?_succ cum i h
  set q0 : ℚ :=
    (if cum.getD (i + 1) 0 - cum.getD i 0 < 0 then 0
     else cum.getD (i + 1) 0 - cum.getD i 0) with hq0
  have hmemwin : (some q0 : Cell) ∈ (dc.take (i + 1 + 1)).drop (i + 1 + 1 - 7) := by
    apply List.mem_iff_getElem?.mpr
    refine ⟨i + 1 - (i + 1 + 1 - 7), ?_⟩
    rw [List.getElem?_drop]
    have harith : i + 1 + 1 - 7 + (i + 1 - (i + 1 + 1 - 7)) = i + 1 := by
      omega
    rw [harith, List.getElem?_take, if_pos (by omega)]
    rw [← hdc] at hcell
    exact hcell
  have hmemvals : q0 ∈
      ((dc.take (i + 1 + 1)).drop (i + 1 + 1 - 7)).filterMap id :=
    List.mem_filterMap.mpr ⟨some q0, hmemwin, rfl⟩
  have hpos : 1 ≤
      (((dc.take (i + 1 + 1)).drop (i + 1 + 1 - 7)).filterMap id).length :=
    List.length_pos.mpr (List.ne_nil_of_mem hmemvals)
  refine ⟨(((dc.take (i + 1 + 1)).drop (i + 1 + 1 - 7)).filterMap id).sum /
    ((((dc.take (i + 1 + 1)).drop (i + 1 + 1 - 7)).filterMap id).length : ℚ),
    ?_⟩
  dsimp only
  rw [if_pos hpos]

lemma filter_eq_drop_one {α : Type} (p : α → Bool) (l : List α)
    (h0 : ∀ x, l[0]? = some x → p x = false)
    (h1 : ∀ i x, l[i + 1]? = some x → p x = true) :
    l.filter p = l.drop 1 := by
  cases l with
  | nil => rfl
  | cons a t =>
    have ha : p a = false := h0 a (by simp)
    have ht : t.filter p = t := by
      rw [List.filter_eq_self]
      intro x hx
      obtain ⟨i, hi⟩ := List.mem_iff_getElem?.mp hx
      exact h1 i x (by simpa using hi)
    simp [List.filter_cons, ha, ht]

/-- C4: the claim fails when the population join misses: with
population NaN the per-million columns are NaN on every row, and the
subset free dropna of country_comparison.py line 83 then removes all
three rows of the entity, not only the first, so the derived row count
is 0 and not 3 - 1. -/
theorem c4_counterexample :
    (dropna (countryRows [1, 2, 3] [100, 110, 130] none)).length = 0 ∧
    (dropna (countryRows [1, 2, 3] [100, 110, 130] none)).length ≠
      ([100, 110, 130] : List ℚ).length - 1 := by
  constructor
  · decide
  · decide

/-- C4 (amended): when the population join succeeds, dropna removes
exactly the first row of the entity (the one whose delta is undefined)
and keeps every later row, so the derived row count is the number of
time points minus 1.  For an entity whose population join missed, the
same dropna instead removes every row of the entity (see the
counterexample). -/
theorem c4_amended (dates : List ℕ) (cum : List ℚ) (p : ℚ) :
    dropna (countryRows dates cum (some p)) =
      (countryRows dates cum (some p)).drop 1 ∧
    (dropna (countryRows dates cum (some p))).length =
      cum.length - 1 := by
  have hlenrows : (countryRows dates cum (some p)).length = cum.length := by
    simp [countryRows]
  have hmain : dropna (countryRows dates cum (some p)) =
      (countryRows dates cum (some p)).drop 1 := by
    rw [dropna]
    apply filter_eq_drop_one
    · intro x hx
      have h0 : 0 < cum.length := by
        obtain ⟨hlt, _⟩ := List.getElem?_eq_some.mp hx
        rwa [hlenrows] at hlt
      rw [countryRows_getElem? dates cum (some p) 0 h0] at hx
      have hx' := Option.some.inj hx
      rw [← hx']
      simp [List.getD_eq_getElem?_getD, dailyColumn_getElem?_zero cum h0]
    · intro i x hx
      have hsucc : i + 1 < cum.length := by
        obtain ⟨hlt, _⟩ := List.getElem?_eq_some.mp hx
        rwa [hlenrows] at hlt
      rw [countryRows_getElem? dates cum (some p) (i + 1) hsucc] at hx
      have hx' := Option.some.inj hx
      obtain ⟨qs, hqs⟩ := sevenDayAverage_isSome_succ cum i hsucc
      rw [← hx']
      simp [List.getD_eq_getElem?_getD, dailyColumn_getElem?_succ cum i hsucc,
        hqs, perCapitaCell]
  refine ⟨hmain, ?_⟩
  rw [hmain, List.length_drop, hlenrows]

/-- C4 amended, witnessed on a three point series with population 50:
dropna keeps exactly the last two rows. -/
theorem c4_amended_witness :
    dropna (countryRows [1, 2, 3] [100, 90, 130] (some 50)) =
      (countryRows [1, 2, 3] [100, 90, 130] (some 50)).drop 1 ∧
    (dropna (countryRows [1, 2, 3] [100, 90, 130] (some 50))).length = 2 := by
  have h := c4_amended [1, 2, 3] [100, 90, 130] 50
  exact ⟨h.1, by simpa using h.2⟩

lemma mem_keepFirstAux {α : Type} [DecidableEq α] (l : List α)
    (seen : List α) (a : α) :
    a ∈ keepFirstAux seen l ↔ a ∈ l ∧ a ∉ seen := by
  induction l generalizing seen with
  | nil => simp [keepFirstAux]
  | cons x t ih =>
    rw [keepFirstAux]
    split_ifs with hx
    · rw [ih]
      simp only [List.mem_cons]
      constructor
      · rintro ⟨hat, has⟩
        exact ⟨Or.inr hat, has⟩
      · rintro ⟨hax | hat, has⟩
        · subst hax
          exact absurd hx has
        · exact ⟨hat, has⟩
    · simp only [List.mem_cons, ih]
      constructor
      · rintro (rfl | ⟨hat, hne⟩)
        · exact ⟨Or.inl rfl, hx⟩
        · exact ⟨Or.inr hat, fun hs => hne (Or.inr hs)⟩
      · rintro ⟨rfl | hat, hs⟩
        · exact Or.inl rfl
        · by_cases hax : a = x
          · exact Or.inl hax
          · exact Or.inr ⟨hat, fun hsx => hsx.elim hax hs⟩

lemma mem_keepFirst {α : Type} [DecidableEq α] (l : List α) (a : α) :
    a ∈ keepFirst l ↔ a ∈ l := by
  rw [keepFirst, mem_keepFirstAux]
  simp

lemma nodup_keepFirstAux {α : Type} [DecidableEq α] (l : List α)
    (seen : List α) : (keepFirstAux seen l).Nodup := by
  induction l generalizing seen with
  | nil => exact List.nodup_nil
  | cons x t ih =>
    rw [keepFirstAux]
    split_ifs with hx
    · exact ih seen
    · refine List.nodup_cons.mpr ⟨?_, ih (x :: seen)⟩
      intro hmem
      exact ((mem_keepFirstAux t (x :: seen) x).mp hmem).2
        (List.mem_cons_self x seen)

lemma nodup_keepFirst {α : Type} [DecidableEq α] (l : List α) :
    (keepFirst l).Nodup :=
  nodup_keepFirstAux l []

/-- C6: after aggregation (entity, time) is a unique key; no
aggregated row carries a cruise liner label; and every aggregated
value sums only rows that survived the exclusion, which therefore ran
before the group by sum. -/
theorem c6_aggregation (rows : List JRow) :
    ((aggregateDeaths rows).map Prod.fst).Nodup ∧
    (∀ k v, (k, v) ∈ aggregateDeaths rows → k.1 ∉ excludedCountries) ∧
    (∀ k v, (k, v) ∈ aggregateDeaths rows →
      v = (((dropCruiseLiners rows).filter
        fun r => (r.country, r.date) = k).map fun r => r.deaths).sum) := by
  refine ⟨?_, ?_, ?_⟩
  · rw [aggregateDeaths, groupBySum, List.map_map]
    have hfst : (Prod.fst ∘ fun k : String × ℕ =>
        (k, (((dropCruiseLiners rows).filter
          fun r => (r.country, r.date) = k).map fun r => r.deaths).sum)) =
        id := by
      funext k
      rfl
    rw [hfst, List.map_id]
    exact nodup_keepFirst _
  · intro k v hkv
    rw [aggregateDeaths, groupBySum] at hkv
    obtain ⟨k', hk', hpair⟩ := List.mem_map.mp hkv
    have h1 : k' = k := congrArg Prod.fst hpair
    subst h1
    have hk'' := (mem_keepFirst _ _).mp hk'
    obtain ⟨r, hr, hrk⟩ := List.mem_map.mp hk''
    have hrmem := List.mem_filter.mp hr
    intro hex
    have hnot : ¬ r.country ∈ excludedCountries := by
      simpa using hrmem.2
    rw [← hrk] at hex
    exact hnot hex
  · intro k v hkv
    rw [aggregateDeaths, groupBySum] at hkv
    obtain ⟨k', hk', hpair⟩ := List.mem_map.mp hkv
    have h1 : k' = k := congrArg Prod.fst hpair
    subst h1
    have h2 := congrArg Prod.snd hpair
    simpa using h2.symm

/-- C6 witnessed on a one row table for Sweden: the aggregated key set
has no duplicates and the aggregated key is not a cruise liner
label. -/
theorem c6_witness :
    ((aggregateDeaths [⟨"A", "Sweden", 1, 2⟩]).map Prod.fst).Nodup ∧
    ¬ (("Sweden", 1) : String × ℕ).1 ∈ excludedCountries := by
  have hmem : ((("Sweden", 1) : String × ℕ),
      (((dropCruiseLiners [⟨"A", "Sweden", 1, 2⟩]).filter
        fun r => (r.country, r.date) = ("Sweden", 1)).map
        fun r => r.deaths).sum) ∈
      aggregateDeaths [⟨"A", "Sweden", 1, 2⟩] := by
    rw [aggregateDeaths, groupBySum]
    apply List.mem_map.mpr
    refine ⟨("Sweden", 1), ?_, rfl⟩
    rw [mem_keepFirst]
    apply List.mem_map.mpr
    refine ⟨⟨"A", "Sweden", 1, 2⟩, ?_, rfl⟩
    rw [dropCruiseLiners]
    apply List.mem_filter.mpr
    refine ⟨List.mem_singleton.mpr rfl, by decide⟩
  exact ⟨(c6_aggregation [⟨"A", "Sweden", 1, 2⟩]).1,
    (c6_aggregation [⟨"A", "Sweden", 1, 2⟩]).2.1 _ _ hmem⟩

lemma firstTrueIdx_eq_some {α : Type} (p : α → Bool) (l : List α)
    (k : ℕ) (x : α) (hk : l[k]? = some x) (hx : p x = true)
    (hbefore : ∀ j y, j < k → l[j]? = some y → p y = false) :
    firstTrueIdx p l = some k := by
  induction l generalizing k with
  | nil => simp at hk
  | cons a t ih =>
    rw [firstTrueIdx]
    by_cases hpa : p a
    · rw [if_pos hpa]
      cases k with
      | zero => rfl
      | succ j =>
        have := hbefore 0 a (Nat.succ_pos j) (by simp)
        rw [this] at hpa
        exact absurd hpa (by simp)
    · rw [if_neg hpa]
      cases k with
      | zero =>
        rw [List.getElem?_cons_zero] at hk
        obtain rfl := Option.some.inj hk
        exact absurd hx (by simpa using hpa)
      | succ j =>
        rw [List.getElem?_cons_succ] at hk
        have hrec := ih j hk fun j' y hj' hy =>
          hbefore (j' + 1) y (by omega)
            (by rwa [List.getElem?_cons_succ])
        rw [hrec]
        rfl

lemma firstTrueIdx_eq_none {α : Type} (p : α → Bool) (l : List α)
    (h : ∀ x ∈ l, p x = false) : firstTrueIdx p l = none := by
  induction l with
  | nil => rfl
  | cons a t ih =>
    rw [firstTrueIdx, if_neg, ih]
    · rfl
    · intro x hx
      exact h x (List.mem_cons_of_mem a hx)
    · intro hpa
      have := h a (List.mem_cons_self a t)
      rw [this] at hpa
      exact absurd hpa (by simp)

/-- C7: whenever the first zero of the pandemic column sits at a
position k with 3 ≤ k (every earlier position nonzero), the truncation
keeps exactly the first k - 3 positions: the kept rows are a prefix of
the reported current period (the k positions before the zero) and
exactly its 3 most recent positions are dropped before
presentation. -/
theorem c7_truncation (l : List ℚ) (k : ℕ) (hk3 : 3 ≤ k)
    (hklen : k < l.length) (hzero : l[k]? = some 0)
    (hbefore : ∀ j y, j < k → l[j]? = some y → y ≠ 0) :
    truncateWeekly l = l.take (k - 3) ∧
    l.take (k - 3) = (l.take k).take (k - 3) ∧
    (l.take k).length - (truncateWeekly l).length = 3 := by
  have hargmax : argmaxFirstZero l = k := by
    rw [argmaxFirstZero,
      firstTrueIdx_eq_some (fun x => x = 0) l k 0 hzero (by simp)
        fun j y hj hy => by simpa using hbefore j y hj hy]
    rfl
  have hmain : truncateWeekly l = l.take (k - 3) := by
    rw [truncateWeekly, hargmax, pySliceTo, if_pos (by omega)]
    congr 1
    omega
  refine ⟨hmain, ?_, ?_⟩
  · rw [List.take_take]
    congr 1
    omega
  · rw [hmain, List.length_take, List.length_take]
    omega

/-- C7 witnessed: in the series 5, 6, 7, 8, 0, 9 the first zero sits
at position 4, the truncation keeps only the first 4 - 3 = 1 position,
and the 4 reported positions lose exactly their 3 most recent ones. -/
theorem c7_witness :
    truncateWeekly [5, 6, 7, 8, 0, 9] = [(5 : ℚ)] ∧
    (([5, 6, 7, 8, 0, 9] : List ℚ).take 4).length = 4 := by
  have hb : ∀ j y, j < 4 → (([5, 6, 7, 8, 0, 9] : List ℚ)[j]? = some y) →
      y ≠ 0 := by
    intro j y hj hy
    interval_cases j <;> (simp at hy) <;> (subst hy; norm_num)
  have h := c7_truncation [5, 6, 7, 8, 0, 9] 4 (by omega) (by simp)
    (by rfl) hb
  refine ⟨?_, by simp⟩
  rw [h.1]
  rfl

/-- C10: the edge cases of the truncation slice.  If no pandemic value
is exactly zero the argmax scan returns position 0, the slice end is
0 - 3 = -3, and exactly the last 3 of the 104 weekly positions are
dropped; if the first zero sits at a position k < 3, the slice end is
k - 3 < 0 and exactly the last 3 - k positions are dropped, not
everything from the zero onward. -/
theorem c10_truncation_edge (l : List ℚ) (hlen : l.length = 104) :
    ((∀ x ∈ l, x ≠ 0) → argmaxFirstZero l = 0 ∧
      truncateWeekly l = l.take 101) ∧
    (∀ k, k < 3 → argmaxFirstZero l = k →
      truncateWeekly l = l.take (101 + k)) := by
  constructor
  · intro hnozero
    have hargmax : argmaxFirstZero l = 0 := by
      rw [argmaxFirstZero, firstTrueIdx_eq_none]
      · rfl
      · intro x hx
        simpa using hnozero x hx
    refine ⟨hargmax, ?_⟩
    rw [truncateWeekly, hargmax, pySliceTo, if_neg (by omega)]
    rw [hlen]
    rfl
  · intro k hk3 hargmax
    rw [truncateWeekly, hargmax, pySliceTo, if_neg (by omega), hlen]
    congr 1
    omega

/-- C10 witnessed on an all ones series of length 104: no zero exists,
the argmax scan returns 0 and exactly the last 3 positions are
dropped. -/
theorem c10_truncation_edge_witness :
    argmaxFirstZero (List.replicate 104 (1 : ℚ)) = 0 ∧
    truncateWeekly (List.replicate 104 (1 : ℚ)) =
      (List.replicate 104 (1 : ℚ)).take 101 := by
  have h := c10_truncation_edge (List.replicate 104 (1 : ℚ)) (by simp)
  exact h.1 fun x hx => by
    rw [List.eq_of_mem_replicate hx]
    norm_num

/-- C8: the claim that each (year, week) key appears at most once in
the written cache fails: drop_duplicates() deduplicates entire rows,
so when week 10 of 2021 is already cached with 100 individual tests
and is scraped again with a revised 120, both rows survive and the key
(2021, 10) appears twice. -/
theorem c8_counterexample :
    ((updateCache [⟨2021, 10, 100, 200, 5⟩] [⟨2021, 10, 120, 200, 5⟩]).filter
      fun r => r.year = 2021 ∧ r.vecka = 10).length = 2 := by
  decide

/-- C8 (amended): the update never loses a cached row, hence every
(year, week) key present in the cache before the update is still
present afterwards, and only fully identical duplicate rows are
removed: the written cache holds no two identical rows.  A (year,
week) key can however appear more than once when the same week is
scraped again with changed values. -/
theorem c8_amended (cache scraped : List TRow) :
    (∀ r ∈ cache, r ∈ updateCache cache scraped) ∧
    (updateCache cache scraped).Nodup := by
  constructor
  · intro r hr
    have hmem : r ∈ keepFirst (cache ++ scraped) :=
      (mem_keepFirst _ _).mpr (List.mem_append_left scraped hr)
    exact ((List.perm_insertionSort cacheLE _).mem_iff).mpr hmem
  · exact ((List.perm_insertionSort cacheLE _).nodup_iff).mpr
      (nodup_keepFirst _)

/-- C8 amended, witnessed: a cached week 8 of 2020 survives an update
that scrapes week 10 of 2021, and the written rows are pairwise
distinct. -/
theorem c8_amended_witness :
    (⟨2020, 8, 1, 2, 3⟩ : TRow) ∈
      updateCache [⟨2020, 8, 1, 2, 3⟩] [⟨2021, 10, 4, 5, 6⟩] ∧
    (updateCache [⟨2020, 8, 1, 2, 3⟩] [⟨2021, 10, 4, 5, 6⟩]).Nodup := by
  have h := c8_amended [⟨2020, 8, 1, 2, 3⟩] [⟨2021, 10, 4, 5, 6⟩]
  exact ⟨h.1 ⟨2020, 8, 1, 2, 3⟩ (by decide), h.2⟩

/-- C9: the claim that every prepare step leaves the shared input
tables unchanged fails: on a state whose Statistikdatum column holds a
raw date string, prepare_cases_data returns a state whose shared sheet
differs from the input (the column has been parsed in place, because
covid_cases.py line 22 takes no copy before the column assignment of
lines 24 to 26). -/
theorem c9_counterexample :
    (prepare_cases_data
      { fhmData :=
          { antalPerDagRegion :=
              { statistikdatum := [DateCell.raw "2020-03-01"]
                countyColumns := [] }
            antalAvlidnaPerDag := [] }
        countiesPop := [] }).1 ≠
      { fhmData :=
          { antalPerDagRegion :=
              { statistikdatum := [DateCell.raw "2020-03-01"]
                countyColumns := [] }
            antalAvlidnaPerDag := [] }
        countiesPop := [] } := by
  decide

/-- C9 (amended): Deaths.prepare_data copies the shared table and
leaves the entire shared state unchanged; CasesData.prepare_cases_data
leaves the counties population table, the deaths sheet and the county
columns unchanged, but replaces the Statistikdatum column of the
shared Antal per dag region sheet by its parsed version. -/
theorem c9_amended (st : PipelineState) :
    (prepare_data st).1 = st ∧
    (prepare_cases_data st).1.countiesPop = st.countiesPop ∧
    (prepare_cases_data st).1.fhmData.antalAvlidnaPerDag =
      st.fhmData.antalAvlidnaPerDag ∧
    (prepare_cases_data st).1.fhmData.antalPerDagRegion.countyColumns =
      st.fhmData.antalPerDagRegion.countyColumns ∧
    (prepare_cases_data st).1.fhmData.antalPerDagRegion.statistikdatum =
      st.fhmData.antalPerDagRegion.statistikdatum.map toDatetime :=
  ⟨rfl, rfl, rfl, rfl, rfl⟩

end SwedenCovid
